import Mathlib

/-!
# Verification of the GetStockData service layer

A shallow embedding of the `GetStockData` FastAPI application:

* `app/core/config.py`       → `Settings`
* `app/models/stock_models.py` → `FundamentalAnalysis`, `ValuationAnalysis`,
  `TechnicalAnalysis`, `SentimentAnalysis`, `StockReport` (with the pydantic
  `code` validator modelled by `mkStockReport`)
* `app/services/stock_service.py` → `StockService.*` methods as pure
  state-passing functions over `ServiceState`
* `app/main.py`              → `fullReportEndpoint`

Modelling conventions:

* Python `datetime` instants are nonnegative seconds (`Nat`).  All calls to
  `datetime.now()` made while serving one request are modelled as the single
  instant `now` passed to the function (the intra-request drift is
  microseconds and no analysed property depends on it).
* `timedelta.seconds` (the attribute the code uses, NOT `total_seconds()`)
  is the seconds component after whole days are removed: `d % 86400`.
* Python numbers: `int` is `Int`; `float` is modelled as `Rat` (IEEE rounding
  and `nan`/`inf` forms are not modelled; no analysed property involves
  rounding).
* akshare calls are modelled by a `Provider` record of pure functions; a
  result of `none` models the call raising an exception, `some rows` a
  returned `DataFrame` with the given rows (`[]` = empty frame).  Every
  invocation of a provider function counts as one external call; the counts
  are threaded through and returned.
* The `async` helpers `_get_*_data` contain no `await`, so
  `asyncio.gather` runs them to completion sequentially in argument order;
  the embedding composes them sequentially.
* Raised exceptions are modelled with `Except`; `StockExc` covers the two
  exception classes that can escape `StockService`.
-/

/-- A Python value as it occurs in provider frames and dictionaries:
`None`, a `str`, an `int`, or a `float` (modelled as `Rat`). -/
inductive PyVal where
  | pnone : PyVal
  | pstr (s : String) : PyVal
  | pint (n : Int) : PyVal
  | prat (q : Rat) : PyVal
deriving DecidableEq, Repr

/-- Characters removed by Python `str.strip()` with no argument
(the common ASCII whitespace forms). -/
def isPyWhitespace (c : Char) : Bool :=
  c = ' ' || c = '\t' || c = '\n' || c = '\r' || c = '\x0b' || c = '\x0c'

/-- Python `s.strip()` on the character list of a string. -/
def pyStrip (cs : List Char) : List Char :=
  ((cs.dropWhile isPyWhitespace).reverse.dropWhile isPyWhitespace).reverse

/-- Python `s.replace(c, '')` for a one-character pattern: every occurrence
of the character is removed. -/
def pyRemoveChar (cs : List Char) (c : Char) : List Char :=
  cs.filter (fun d => d ≠ c)

/-- Numeric value of a list of decimal digit characters. -/
def digitsToNat (cs : List Char) : Nat :=
  cs.foldl (fun a c => 10 * a + (c.toNat - 48)) 0

/-- Python `float(s)` on a string, restricted to the plain decimal forms
`[+-]digits`, `[+-]digits.digits`, `[+-].digits`, `[+-]digits.` that the
provider data uses (exponent, `inf` and `nan` spellings are not modelled).
`float()` itself strips surrounding whitespace.  `none` models the
`ValueError` raised on any other input. -/
def pyFloatChars (cs : List Char) : Option Rat :=
  let t := pyStrip cs
  let signed : Int × List Char :=
    match t with
    | '-' :: rest => (-1, rest)
    | '+' :: rest => (1, rest)
    | rest => (1, rest)
  match signed.2.splitOn '.' with
  | [ip] =>
      if ip ≠ [] ∧ ip.all Char.isDigit then
        some (signed.1 * (digitsToNat ip : Int) : Int)
      else none
  | [ip, fp] =>
      if (ip ≠ [] ∨ fp ≠ []) ∧ ip.all Char.isDigit ∧ fp.all Char.isDigit then
        some ((signed.1 : Rat) * ((digitsToNat ip : Rat) +
          (digitsToNat fp : Rat) / ((10 : Rat) ^ fp.length)))
      else none
  | _ => none

/-- Python `float(s)` on a `String`. -/
def pyFloat (s : String) : Option Rat :=
  pyFloatChars s.toList

/-- Python `int(x)` on a float: truncation toward zero. -/
def pyTruncInt (q : Rat) : Int :=
  if 0 ≤ q then ⌊q⌋ else -⌊-q⌋

/-- Decimal rendering of a `Nat`, digit by digit (same output as Python
`str` on a nonnegative int); structurally never empty. -/
def natToStr (n : Nat) : String :=
  if h : n < 10 then String.mk [Char.ofNat (48 + n)]
  else String.mk ((natToStr (n / 10)).toList ++ [Char.ofNat (48 + n % 10)])
decreasing_by exact Nat.div_lt_self (Nat.lt_of_lt_of_le (by decide) (Nat.le_of_not_lt h)) (by decide)

/-- Python `str` on an `int`. -/
def intToStr (n : Int) : String :=
  if n < 0 then String.mk ('-' :: (natToStr n.natAbs).toList) else natToStr n.natAbs

/-- Python `str` on a `float` modelled as `Rat`.  The exact decimal
rendering of Python floats is approximated (`num/den` form); no analysed
property inspects the text beyond nonemptiness, and `float(str(x)) = x`
round-tripping is applied directly where the code relies on it. -/
def ratToStr (q : Rat) : String :=
  String.mk ((intToStr q.num).toList ++ ('/' :: (natToStr q.den).toList))

/-- Python `str(value)` for the modelled value forms. -/
def pyToStr (v : PyVal) : String :=
  match v with
  | .pnone => "None"
  | .pstr s => s
  | .pint n => intToStr n
  | .prat q => ratToStr q

/-- Python truthiness test `not value` (true when the value is falsy). -/
def pyFalsy (v : PyVal) : Bool :=
  match v with
  | .pnone => true
  | .pstr s => s = ""
  | .pint n => n = 0
  | .prat q => q = 0

/-- Body of the `try` block of `StockService._safe_get_float`:
`.error ()` models the `ValueError` raised by `float()` on an unparsable
string, which the `except (ValueError, TypeError)` handler catches.
For `int`/`float` inputs `float(str(value))` recovers the value (the check
`str(value).strip() == '-'` is never true for a number's repr and the repr
contains no comma or percent sign). -/
def safeGetFloatTry (value : PyVal) (default : Option Rat) :
    Except Unit (Option Rat) :=
  match value with
  | .pnone => .ok default
  | .pstr s =>
      if s = "" then .ok default
      else if pyStrip s.toList = ['-'] then .ok default
      else
        match pyFloatChars (pyRemoveChar (pyRemoveChar s.toList ',') '%') with
        | some q => .ok (some q)
        | none => .error ()
  | .pint n => .ok (some (n : Rat))
  | .prat q => .ok (some q)

/-- `StockService._safe_get_float`: the `try` body with the
`except (ValueError, TypeError): return default` handler. -/
def safeGetFloat (value : PyVal) (default : Option Rat) : Option Rat :=
  match safeGetFloatTry value default with
  | .ok r => r
  | .error _ => default

/-- Body of the `try` block of `StockService._safe_get_int`: only commas are
removed (no percent signs), and the parsed float is truncated by `int()`. -/
def safeGetIntTry (value : PyVal) (default : Option Int) :
    Except Unit (Option Int) :=
  match value with
  | .pnone => .ok default
  | .pstr s =>
      if s = "" then .ok default
      else if pyStrip s.toList = ['-'] then .ok default
      else
        match pyFloatChars (pyRemoveChar s.toList ',') with
        | some q => .ok (some (pyTruncInt q))
        | none => .error ()
  | .pint n => .ok (some n)
  | .prat q => .ok (some (pyTruncInt q))

/-- `StockService._safe_get_int` with its exception handler. -/
def safeGetInt (value : PyVal) (default : Option Int) : Option Int :=
  match safeGetIntTry value default with
  | .ok r => r
  | .error _ => default

/-! ## Data models (`app/models/stock_models.py`)

Every field is `Optional` with default `None` in the pydantic models; the
Lean structures give each field default `none`, so `{}` is the
all-defaults constructor call `FundamentalAnalysis()` etc. -/

/-- `FundamentalAnalysis` from `stock_models.py`. -/
structure FundamentalAnalysis where
  market_cap : Option Rat := none
  circulating_market_cap : Option Rat := none
  total_shares : Option Rat := none
  circulating_shares : Option Rat := none
  revenue_ttm : Option Rat := none
  net_profit_ttm : Option Rat := none
  gross_profit_margin : Option Rat := none
  net_profit_margin : Option Rat := none
  roe : Option Rat := none
  roa : Option Rat := none
  debt_to_equity_ratio : Option Rat := none
  current_ratio : Option Rat := none
  quick_ratio : Option Rat := none
  cash_ratio : Option Rat := none
  revenue_growth_yoy : Option Rat := none
  net_profit_growth_yoy : Option Rat := none
  inventory_turnover : Option Rat := none
  accounts_receivable_turnover : Option Rat := none
  total_asset_turnover : Option Rat := none
deriving DecidableEq, Repr

/-- `ValuationAnalysis` from `stock_models.py`. -/
structure ValuationAnalysis where
  pe_ratio_static : Option Rat := none
  pe_ratio_dynamic : Option Rat := none
  pe_ratio_ttm : Option Rat := none
  pb_ratio : Option Rat := none
  ps_ratio : Option Rat := none
  ev_ebitda : Option Rat := none
  peg_ratio : Option Rat := none
  dividend_yield : Option Rat := none
  industry_pe_median : Option Rat := none
  industry_pb_median : Option Rat := none
  pe_percentile_1y : Option Rat := none
  pb_percentile_1y : Option Rat := none
deriving DecidableEq, Repr

/-- `TechnicalAnalysis` from `stock_models.py`. -/
structure TechnicalAnalysis where
  current_price : Option Rat := none
  price_change : Option Rat := none
  price_change_percent : Option Rat := none
  volume : Option Rat := none
  turnover : Option Rat := none
  turnover_rate : Option Rat := none
  day_high : Option Rat := none
  day_low : Option Rat := none
  week_52_high : Option Rat := none
  week_52_low : Option Rat := none
  ma_5 : Option Rat := none
  ma_10 : Option Rat := none
  ma_20 : Option Rat := none
  ma_60 : Option Rat := none
  rsi_6 : Option Rat := none
  rsi_12 : Option Rat := none
  rsi_24 : Option Rat := none
  macd_dif : Option Rat := none
  macd_dea : Option Rat := none
  macd_histogram : Option Rat := none
  boll_upper : Option Rat := none
  boll_middle : Option Rat := none
  boll_lower : Option Rat := none
deriving DecidableEq, Repr

/-- `SentimentAnalysis` from `stock_models.py`. -/
structure SentimentAnalysis where
  main_net_inflow : Option Rat := none
  super_large_net_inflow : Option Rat := none
  large_net_inflow : Option Rat := none
  medium_net_inflow : Option Rat := none
  small_net_inflow : Option Rat := none
  northbound_net_inflow : Option Rat := none
  margin_trading_balance : Option Rat := none
  short_selling_balance : Option Rat := none
  institutional_holdings_ratio : Option Rat := none
  analyst_rating_avg : Option Rat := none
  analyst_target_price : Option Rat := none
  analyst_coverage_count : Option Int := none
  news_sentiment_score : Option Rat := none
  news_count_7d : Option Int := none
  concept_labels : Option (List String) := none
  industry_label : Option String := none
deriving DecidableEq, Repr

/-- `StockReport` from `stock_models.py`: code, name, update instant and the
four mandatory analysis sections (their presence is enforced by the
structure type itself). -/
structure StockReport where
  code : String
  name : String
  update_time : Nat
  fundamental_analysis : FundamentalAnalysis
  valuation_analysis : ValuationAnalysis
  technical_analysis : TechnicalAnalysis
  sentiment_analysis : SentimentAnalysis
deriving DecidableEq, Repr

/-- The pydantic `validate_stock_code` validator's acceptance condition:
`v` nonempty, of length 6 and all decimal digits (length 6 subsumes
nonemptiness). -/
def isValidStockCode (s : String) : Bool :=
  s.length = 6 && s.toList.all Char.isDigit

/-- Constructing a `StockReport(...)`: the `code` validator runs and a
failure raises a pydantic `ValidationError`, modelled as `.error ()`. -/
def mkStockReport (code name : String) (t : Nat) (fa : FundamentalAnalysis)
    (va : ValuationAnalysis) (ta : TechnicalAnalysis) (sa : SentimentAnalysis) :
    Except Unit StockReport :=
  if isValidStockCode code then
    .ok { code := code, name := name, update_time := t,
          fundamental_analysis := fa, valuation_analysis := va,
          technical_analysis := ta, sentiment_analysis := sa }
  else .error ()

/-! ## Settings (`app/core/config.py`) and the provider (`akshare`) -/

/-- The cache-relevant fields of `Settings` with their defaults
(`CACHE_TTL = 300`, `MAX_CACHE_SIZE = 1000`); environment overrides are
modelled by other field values. -/
structure Settings where
  CACHE_TTL : Nat := 300
  MAX_CACHE_SIZE : Nat := 1000
deriving DecidableEq, Repr

/-- A data-frame row / keyed record: association of column label to value. -/
abbrev Row := List (String × PyVal)

/-- `row.get(key)` on a pandas row or dict: the value, or `None` when the
label is absent (duplicate labels resolved to the first match, as the
dictionaries built below never hold duplicates). -/
def rowGet (r : Row) (k : String) : PyVal :=
  match r.find? (fun e => e.1 = k) with
  | some e => e.2
  | none => .pnone

/-- `d.get(key, default)` with an explicit default. -/
def rowGetD (r : Row) (k : String) (d : PyVal) : PyVal :=
  match r.find? (fun e => e.1 = k) with
  | some e => e.2
  | none => d

/-- Dictionary update `d[k] = v`: replaces the value of an existing key,
otherwise appends the new pair. -/
def assocSet {α : Type _} (d : List (String × α)) (k : String) (v : α) :
    List (String × α) :=
  if (d.find? (fun e => e.1 = k)).isSome then
    d.map (fun e => if e.1 = k then (k, v) else e)
  else d ++ [(k, v)]

/-- The `for _, row in stock_info.iterrows(): info_dict[row['item']] =
row['value']` loop of `_get_stock_info`, building a dict from the frame's
`(item, value)` rows (later duplicates overwrite). -/
def buildInfoDict (rows : List (String × PyVal)) : Row :=
  rows.foldl (fun d e => assocSet d e.1 e.2) []

/-- The external akshare interface used by `stock_service.py`.  Each field
is one akshare function; `none` models the call raising, `some rows` the
frame it returns. -/
structure Provider where
  stock_individual_info_em : String → Option (List (String × PyVal))
  stock_financial_analysis_indicator : String → Option (List Row)
  stock_zh_a_spot_em : Option (List Row)
  stock_zh_a_hist : String → Option (List Row)
  stock_individual_fund_flow : String → String → Option (List Row)
  stock_board_concept_cons_em : String → Option (List Row)

/-- Python `timedelta.seconds` on a nonnegative difference of instants:
the seconds left after whole days are removed (the code uses this
attribute, not `total_seconds()`). -/
def tdSeconds (d : Nat) : Nat :=
  d % 86400

/-! ## The service (`app/services/stock_service.py`) -/

/-- The two exception classes that escape `StockService`. -/
inductive StockExc where
  | notFound : StockExc
  | dataError : StockExc
deriving DecidableEq, Repr

/-- The memo table of the `functools.lru_cache` wrapping
`_get_stock_info`: successful results keyed by stock code, most recently
used first. -/
abbrev InfoMemo := List (String × Row)

/-- The mutable state of a `StockService` instance: the report cache
`self._cache` (key ↦ (report, fetch instant)), `self._last_clear_cache`,
and the `lru_cache` memo of `_get_stock_info`. -/
structure ServiceState where
  cache : List (String × (StockReport × Nat)) := []
  lastClearCache : Nat := 0
  infoMemo : InfoMemo := []
deriving DecidableEq, Repr

/-- `StockService._get_cache_key`. -/
def getCacheKey (stock_code : String) : String :=
  "stock_" ++ stock_code

/-- `StockService._is_cache_expired`:
`(datetime.now() - cache_time).seconds > settings.CACHE_TTL`. -/
def isCacheExpired (st : Settings) (now cache_time : Nat) : Bool :=
  tdSeconds (now - cache_time) > st.CACHE_TTL

/-- `StockService._clear_expired_cache`: when more than `CACHE_TTL`
seconds (by the `timedelta.seconds` measure) have passed since the last
sweep, delete every entry `_is_cache_expired` flags and record the sweep
instant; otherwise leave the state alone. -/
def clearExpiredCache (st : Settings) (now : Nat) (σ : ServiceState) :
    ServiceState :=
  if tdSeconds (now - σ.lastClearCache) > st.CACHE_TTL then
    { σ with
      cache := σ.cache.filter (fun e => ¬ isCacheExpired st now e.2.2),
      lastClearCache := now }
  else σ

/-- The undecorated body of `StockService._get_stock_info` (one provider
call).  An empty frame raises `StockNotFoundError` *inside* the `try`
block, and the blanket `except Exception` of the same function catches it
and re-raises `StockDataError`; a raising provider call is wrapped the
same way.  Result: dict, or `StockExc.dataError`. -/
def getStockInfoRaw (p : Provider) (stock_code : String) :
    Except StockExc Row :=
  match p.stock_individual_info_em stock_code with
  | none => .error .dataError
  | some rows =>
      if rows.isEmpty then .error .dataError
      else .ok (buildInfoDict rows)

/-- `StockService._get_stock_info` as decorated with
`@lru_cache(maxsize=settings.MAX_CACHE_SIZE)`: a memo hit returns the
stored dict with no provider call (moving the key to the front of the LRU
order); on a miss the body runs, a successful result is memoised (evicting
beyond `maxsize`), and a raised exception is not memoised.  Returns
(result, new memo, number of provider calls). -/
def getStockInfo (p : Provider) (st : Settings) (stock_code : String)
    (memo : InfoMemo) : Except StockExc Row × InfoMemo × Nat :=
  match memo.find? (fun e => e.1 = stock_code) with
  | some e =>
      (.ok e.2, (stock_code, e.2) :: memo.filter (fun e => e.1 ≠ stock_code), 0)
  | none =>
      match getStockInfoRaw p stock_code with
      | .ok d => (.ok d, ((stock_code, d) :: memo).take st.MAX_CACHE_SIZE, 1)
      | .error e => (.error e, memo, 1)

/-! ## The four sub-section fetchers -/

/-- `pd.to_numeric(x, errors='coerce')` on one cell: numbers pass through,
parsable strings are parsed, anything else becomes `NaN` (`none`). -/
def pyToNumeric (v : PyVal) : Option Rat :=
  match v with
  | .pint n => some (n : Rat)
  | .prat q => some q
  | .pstr s => pyFloat s
  | .pnone => none

/-- `series.rolling(window=w).mean().iloc[-1]`: the mean of the final `w`
elements; `NaN` (`none`) when the series is shorter than `w` or the final
window contains a `NaN`. -/
def rollingMeanLast (w : Nat) (xs : List (Option Rat)) : Option Rat :=
  if xs.length < w ∨ w = 0 then none
  else
    let lastw := xs.drop (xs.length - w)
    if lastw.all Option.isSome then
      some ((lastw.foldl (fun a x => a + x.getD 0) 0) / (w : Rat))
    else none

/-- `series.max()` with pandas' default `skipna=True`: the largest non-`NaN`
value, `NaN` (`none`) when there is none. -/
def seriesMax (xs : List (Option Rat)) : Option Rat :=
  xs.foldl
    (fun acc x =>
      match acc, x with
      | none, v => v
      | some a, none => some a
      | some a, some b => some (max a b))
    none

/-- `series.min()` with `skipna=True`. -/
def seriesMin (xs : List (Option Rat)) : Option Rat :=
  xs.foldl
    (fun acc x =>
      match acc, x with
      | none, v => v
      | some a, none => some a
      | some a, some b => some (min a b))
    none

/-- The field extraction of `_get_fundamental_data` once both frames are in
hand: four fields from the basic-info dict, and, when the financial frame
is nonempty, nine more from its last row (`iloc[-1]`). -/
def fundamentalOfData (info : Row) (fin : List Row) : FundamentalAnalysis :=
  let base : FundamentalAnalysis :=
    { market_cap := safeGetFloat (rowGet info "总市值") none
      circulating_market_cap := safeGetFloat (rowGet info "流通市值") none
      total_shares := safeGetFloat (rowGet info "总股本") none
      circulating_shares := safeGetFloat (rowGet info "流通股") none }
  if fin.isEmpty then base
  else
    let latest := fin.getLastD []
    { base with
      revenue_ttm := safeGetFloat (rowGet latest "营业收入") none
      net_profit_ttm := safeGetFloat (rowGet latest "净利润") none
      gross_profit_margin := safeGetFloat (rowGet latest "毛利率") none
      net_profit_margin := safeGetFloat (rowGet latest "净利率") none
      roe := safeGetFloat (rowGet latest "净资产收益率") none
      roa := safeGetFloat (rowGet latest "总资产收益率") none
      debt_to_equity_ratio := safeGetFloat (rowGet latest "资产负债比率") none
      current_ratio := safeGetFloat (rowGet latest "流动比率") none
      quick_ratio := safeGetFloat (rowGet latest "速动比率") none }

/-- `StockService._get_fundamental_data`: any exception inside the `try`
(the memoised info lookup raising, or the financial-indicator fetch
raising) is caught and replaced by the all-defaults section.  Returns
(section, new memo, provider calls). -/
def getFundamentalData (p : Provider) (st : Settings) (stock_code : String)
    (memo : InfoMemo) : FundamentalAnalysis × InfoMemo × Nat :=
  match getStockInfo p st stock_code memo with
  | (.error _, memo1, n) => ({}, memo1, n)
  | (.ok info, memo1, n) =>
      match p.stock_financial_analysis_indicator stock_code with
      | none => ({}, memo1, n + 1)
      | some fin => (fundamentalOfData info fin, memo1, n + 1)

/-- The field extraction of `_get_valuation_data` from the basic-info
dict. -/
def valuationOfInfo (info : Row) : ValuationAnalysis :=
  { pe_ratio_static := safeGetFloat (rowGet info "市盈率-静态") none
    pe_ratio_dynamic := safeGetFloat (rowGet info "市盈率-动态") none
    pe_ratio_ttm := safeGetFloat (rowGet info "市盈率TTM") none
    pb_ratio := safeGetFloat (rowGet info "市净率") none
    ps_ratio := safeGetFloat (rowGet info "市销率") none
    dividend_yield := safeGetFloat (rowGet info "股息率") none }

/-- `StockService._get_valuation_data`: the info lookup raising is caught
and replaced by the all-defaults section. -/
def getValuationData (p : Provider) (st : Settings) (stock_code : String)
    (memo : InfoMemo) : ValuationAnalysis × InfoMemo × Nat :=
  match getStockInfo p st stock_code memo with
  | (.error _, memo1, n) => ({}, memo1, n)
  | (.ok info, memo1, n) => (valuationOfInfo info, memo1, n)

/-- The spot-quote part of `_get_technical_data`: the frame is filtered to
the rows whose `代码` column equals the code string, and the first matching
row (`iloc[0]`) populates the price fields. -/
def technicalSpotPart (spot : List Row) (stock_code : String) :
    TechnicalAnalysis :=
  let stockCurrent :=
    spot.filter (fun r => rowGet r "代码" = .pstr stock_code)
  if stockCurrent.isEmpty then {}
  else
    let row := stockCurrent.headD []
    { current_price := safeGetFloat (rowGet row "最新价") none
      price_change := safeGetFloat (rowGet row "涨跌额") none
      price_change_percent := safeGetFloat (rowGet row "涨跌幅") none
      volume := safeGetFloat (rowGet row "成交量") none
      turnover := safeGetFloat (rowGet row "成交额") none
      turnover_rate := safeGetFloat (rowGet row "换手率") none
      day_high := safeGetFloat (rowGet row "最高") none
      day_low := safeGetFloat (rowGet row "最低") none }

/-- The moving-average part of `_get_technical_data`: only when the history
frame has at least 60 rows, the close column is coerced numeric and the
last rolling means and extremes are taken. -/
def technicalHistPart (ta : TechnicalAnalysis) (hist : List Row) :
    TechnicalAnalysis :=
  if ¬ hist.isEmpty ∧ 60 ≤ hist.length then
    let closes := hist.map (fun r => pyToNumeric (rowGet r "收盘"))
    { ta with
      ma_5 := rollingMeanLast 5 closes
      ma_10 := rollingMeanLast 10 closes
      ma_20 := rollingMeanLast 20 closes
      ma_60 := rollingMeanLast 60 closes
      week_52_high := seriesMax closes
      week_52_low := seriesMin closes }
  else ta

/-- `StockService._get_technical_data`: the spot fetch runs first, then the
history fetch; either raising aborts the `try` body and the handler
returns the all-defaults section.  Returns (section, provider calls). -/
def getTechnicalData (p : Provider) (stock_code : String) :
    TechnicalAnalysis × Nat :=
  match p.stock_zh_a_spot_em with
  | none => ({}, 1)
  | some spot =>
      match p.stock_zh_a_hist stock_code with
      | none => ({}, 2)
      | some hist =>
          (technicalHistPart (technicalSpotPart spot stock_code) hist, 2)

/-- The market argument of the fund-flow call:
`"sh" if stock_code.startswith('6') else "sz"`. -/
def marketOf (stock_code : String) : String :=
  if stock_code.toList.headD ' ' = '6' then "sh" else "sz"

/-- `StockService._get_sentiment_data`: two independently guarded inner
fetches.  A raising fund-flow call is swallowed (`pass`), leaving the
inflow fields unset; a raising concept call sets `concept_labels = []`.
The matching concept rows' `板块名称` values are listed and truncated to
ten.  Returns (section, provider calls). -/
def getSentimentData (p : Provider) (stock_code : String) :
    SentimentAnalysis × Nat :=
  let flowPart : SentimentAnalysis :=
    match p.stock_individual_fund_flow stock_code (marketOf stock_code) with
    | none => {}
    | some flow =>
        if flow.isEmpty then {}
        else
          let latest := flow.getLastD []
          { main_net_inflow := safeGetFloat (rowGet latest "主力净流入-净额") none
            super_large_net_inflow :=
              safeGetFloat (rowGet latest "超大单净流入-净额") none
            large_net_inflow := safeGetFloat (rowGet latest "大单净流入-净额") none
            medium_net_inflow := safeGetFloat (rowGet latest "中单净流入-净额") none
            small_net_inflow := safeGetFloat (rowGet latest "小单净流入-净额") none }
  match p.stock_board_concept_cons_em "东方财富" with
  | none => ({ flowPart with concept_labels := some [] }, 2)
  | some concept =>
      let concepts :=
        if concept.isEmpty then []
        else
          (concept.filter (fun r => rowGet r "代码" = .pstr stock_code)).map
            (fun r => pyToStr (rowGet r "板块名称"))
      ({ flowPart with concept_labels := some (concepts.take 10) }, 2)

/-! ## `get_full_stock_report` and the HTTP endpoint -/

/-- The body of `get_full_stock_report` after the cache check fails (miss
or expired entry): the opportunistic sweep, the primary lookup, the name
check, the four sequential sub-fetches (`asyncio.gather` over coroutines
containing no `await`), report construction, and the size-guarded cache
store.  `except StockNotFoundError: raise` propagates the not-found error;
every other exception (lookup failure, pydantic `ValidationError` from the
report constructor) becomes `StockDataError`.  Returns (result, new state,
provider calls). -/
def fetchAndBuild (p : Provider) (st : Settings) (now : Nat)
    (stock_code : String) (σ : ServiceState) :
    Except StockExc StockReport × ServiceState × Nat :=
  let σ1 := clearExpiredCache st now σ
  match getStockInfo p st stock_code σ1.infoMemo with
  | (.error e, memo1, n0) =>
      (.error (match e with | .notFound => .notFound | .dataError => .dataError),
        { σ1 with infoMemo := memo1 }, n0)
  | (.ok info, memo1, n0) =>
      let stock_name := rowGetD info "股票简称" (.pstr "")
      if pyFalsy stock_name then
        (.error .notFound, { σ1 with infoMemo := memo1 }, n0)
      else
        let fund := getFundamentalData p st stock_code memo1
        let valu := getValuationData p st stock_code fund.2.1
        let tech := getTechnicalData p stock_code
        let sent := getSentimentData p stock_code
        let calls := n0 + fund.2.2 + valu.2.2 + tech.2 + sent.2
        match mkStockReport stock_code (pyToStr stock_name) now fund.1 valu.1
            tech.1 sent.1 with
        | .error _ => (.error .dataError, { σ1 with infoMemo := valu.2.1 }, calls)
        | .ok report =>
            let σ2 := { σ1 with infoMemo := valu.2.1 }
            let σ3 :=
              if σ2.cache.length < st.MAX_CACHE_SIZE then
                { σ2 with
                  cache := assocSet σ2.cache (getCacheKey stock_code) (report, now) }
              else σ2
            (.ok report, σ3, calls)

/-- `StockService.get_full_stock_report`: an unexpired cache entry is
returned as-is with no provider call and no state change; otherwise the
fetch-and-build path runs. -/
def getFullStockReport (p : Provider) (st : Settings) (now : Nat)
    (stock_code : String) (σ : ServiceState) :
    Except StockExc StockReport × ServiceState × Nat :=
  match σ.cache.find? (fun e => e.1 = getCacheKey stock_code) with
  | some e =>
      if ¬ isCacheExpired st now e.2.2 then (.ok e.2.1, σ, 0)
      else fetchAndBuild p st now stock_code σ
  | none => fetchAndBuild p st now stock_code σ

/-- The observable outcome of a request to the full-report endpoint:
a 200 with a report body, or an error status. -/
inductive ApiResult where
  | success (report : StockReport) : ApiResult
  | failure (status : Nat) : ApiResult
deriving DecidableEq, Repr

/-- The `^\d{6}$` pattern FastAPI checks the `code` query parameter
against before the handler runs (decimal digits modelled over ASCII). -/
def matchesCodeRegex (code : String) : Bool :=
  code.length = 6 && code.toList.all Char.isDigit

/-- Python `code.isdigit()` (false on the empty string; ASCII digits). -/
def pyIsDigitStr (code : String) : Bool :=
  code ≠ "" && code.toList.all Char.isDigit

/-- `GET /api/v1/stock/full-report?code=...` (`get_stock_full_report` in
`app/main.py`).  FastAPI rejects a query value failing the regex with a
422 validation response before the handler or the service runs; inside
the handler the explicit format check maps to 400, `StockNotFoundError`
to 404 and `StockDataError` to 500.  Returns (response, new service
state, provider calls). -/
def fullReportEndpoint (p : Provider) (st : Settings) (now : Nat)
    (code : String) (σ : ServiceState) : ApiResult × ServiceState × Nat :=
  if ¬ matchesCodeRegex code then (.failure 422, σ, 0)
  else if code = "" ∨ code.length ≠ 6 ∨ ¬ pyIsDigitStr code then
    (.failure 400, σ, 0)
  else
    match getFullStockReport p st now code σ with
    | (.ok report, σ1, n) => (.success report, σ1, n)
    | (.error .notFound, σ1, n) => (.failure 404, σ1, n)
    | (.error .dataError, σ1, n) => (.failure 500, σ1, n)

/-! ## Decidability of result comparison -/

instance {ε α : Type _} [DecidableEq ε] [DecidableEq α] : DecidableEq (Except ε α)
  | .ok a, .ok b =>
      if h : a = b then .isTrue (by rw [h])
      else .isFalse (by intro hh; cases hh; exact h rfl)
  | .ok _, .error _ => .isFalse (by intro hh; cases hh)
  | .error _, .ok _ => .isFalse (by intro hh; cases hh)
  | .error e, .error f =>
      if h : e = f then .isTrue (by rw [h])
      else .isFalse (by intro hh; cases hh; exact h rfl)

/-! ## Concrete fixtures used by witnesses and counterexamples -/

/-- The default settings: `CACHE_TTL = 300`, `MAX_CACHE_SIZE = 1000`. -/
def stDefault : Settings := {}

/-- A provider for which every call succeeds: the basic-info frame carries
the stock's short name, every other frame is empty. -/
def pGood : Provider :=
  { stock_individual_info_em := fun _ => some [("股票简称", .pstr "贵州茅台")]
    stock_financial_analysis_indicator := fun _ => some []
    stock_zh_a_spot_em := some []
    stock_zh_a_hist := fun _ => some []
    stock_individual_fund_flow := fun _ _ => some []
    stock_board_concept_cons_em := fun _ => some [] }

/-- A provider that reports the ticker as unknown: the basic-info lookup
returns an empty frame. -/
def pEmptyInfo : Provider :=
  { stock_individual_info_em := fun _ => some []
    stock_financial_analysis_indicator := fun _ => some []
    stock_zh_a_spot_em := some []
    stock_zh_a_hist := fun _ => some []
    stock_individual_fund_flow := fun _ _ => some []
    stock_board_concept_cons_em := fun _ => some [] }

/-- A report as cached by an earlier successful request at instant 0. -/
def staleReport : StockReport :=
  { code := "600519", name := "贵州茅台", update_time := 0
    fundamental_analysis := {}, valuation_analysis := {}
    technical_analysis := {}, sentiment_analysis := {} }

/-- A service state holding only the entry cached at instant 0. -/
def staleState : ServiceState :=
  { cache := [("stock_600519", (staleReport, 0))], lastClearCache := 0
    infoMemo := [] }

/-- A provider whose basic-info fetch raises (network/provider failure);
the other calls are immaterial. -/
def pRaise : Provider :=
  { stock_individual_info_em := fun _ => none
    stock_financial_analysis_indicator := fun _ => some []
    stock_zh_a_spot_em := some []
    stock_zh_a_hist := fun _ => some []
    stock_individual_fund_flow := fun _ _ => some []
    stock_board_concept_cons_em := fun _ => some [] }

/-- The basic-info rows served by `pSentOnly`: a stock name and one
valuation figure. -/
def sentInfoRows : List (String × PyVal) :=
  [("股票简称", .pstr "平安银行"), ("市净率", .pstr "0.5")]

/-- The `lru_cache` memo after `pSentOnly`'s lookup of `000001`. -/
def sentMemo : InfoMemo :=
  [("000001", sentInfoRows)]

/-- A provider for the spec's lone-failure example: the basic-info lookup
and the fundamental/technical fetches succeed, only the two sentiment
fetches raise. -/
def pSentOnly : Provider :=
  { stock_individual_info_em := fun _ => some sentInfoRows
    stock_financial_analysis_indicator := fun _ => some []
    stock_zh_a_spot_em := some []
    stock_zh_a_hist := fun _ => some []
    stock_individual_fund_flow := fun _ _ => none
    stock_board_concept_cons_em := fun _ => none }

/-- The report produced by `pGood` for ticker `600519` at instant 1000. -/
def exampleReport : StockReport :=
  { code := "600519", name := "贵州茅台", update_time := 1000
    fundamental_analysis := {}, valuation_analysis := {}
    technical_analysis := {}
    sentiment_analysis := { concept_labels := some [] } }

/-- The service state after serving that first request at instant 1000
from a fresh service. -/
def exampleState1 : ServiceState :=
  { cache := [("stock_600519", (exampleReport, 1000))]
    lastClearCache := 1000
    infoMemo := [("600519", [("股票简称", .pstr "贵州茅台")])] }

/-- A sequence of requests (instants and codes) applied to a service
state, keeping only the state: the setting of claim C8. -/
def runRequests (p : Provider) (st : Settings) (reqs : List (Nat × String))
    (σ : ServiceState) : ServiceState :=
  reqs.foldl (fun s r => (getFullStockReport p st r.1 r.2 s).2.1) σ

/-- Well-formedness of the report cache: every entry is keyed by its
report's code, the code passed the 6-digit validator, and the name is
nonempty.  Holds for the empty cache and is preserved by every call. -/
def CacheWF (σ : ServiceState) : Prop :=
  ∀ e ∈ σ.cache, e.1 = getCacheKey e.2.1.code ∧
    isValidStockCode e.2.1.code = true ∧ e.2.1.name ≠ ""

/-- Spoken form of claim C9's blank test: the value is `None`, the empty
string, or a lone dash after stripping whitespace. -/
def isBlankOrDash (v : PyVal) : Bool :=
  match v with
  | .pnone => true
  | .pstr s => s = "" || pyStrip s.toList = ['-']
  | .pint _ => false
  | .prat _ => false

/-- Claim C9's description of `_safe_get_float`, written from the spec's
words rather than the code: default on blank/dash, otherwise the number
parsed from the value's string form with commas and percent signs
removed, defaulting when parsing fails (numbers pass through as
themselves). -/
def floatCoercionSpec (v : PyVal) (d : Option Rat) : Option Rat :=
  if isBlankOrDash v then d
  else
    match v with
    | .pnone => d
    | .pstr s =>
        match pyFloat (String.mk (pyRemoveChar (pyRemoveChar s.toList ',') '%')) with
        | some q => some q
        | none => d
    | .pint n => some (n : Rat)
    | .prat q => some q

/-- Claim C9's description of `_safe_get_int`: as for the float helper but
with only commas removed and the parsed value truncated to an integer. -/
def intCoercionSpec (v : PyVal) (d : Option Int) : Option Int :=
  if isBlankOrDash v then d
  else
    match v with
    | .pnone => d
    | .pstr s =>
        match pyFloat (String.mk (pyRemoveChar s.toList ',')) with
        | some q => some (pyTruncInt q)
        | none => d
    | .pint n => some n
    | .prat q => some (pyTruncInt q)

/-! ## Claim theorems -/

/-- C1: the claim says an unknown ticker (empty basic-info result) yields
HTTP 404.  The code disagrees: `_get_stock_info` raises
`StockNotFoundError` for an empty frame *inside* its own `try` block,
whose blanket `except Exception` immediately re-raises it as
`StockDataError`, which the endpoint maps to HTTP 500.  Evaluated here at
ticker `999999` with the provider returning an empty frame: the response
is 500, not 404. -/
theorem C1_unknown_ticker_yields_500 :
    fullReportEndpoint pEmptyInfo stDefault 0 "999999" {} =
      (.failure 500, {}, 1) := by
  decide

/-- C2: the claim says a cache entry older than `CACHE_TTL` seconds is
never served: the next call re-fetches and replaces the entry.  The code
tests staleness with `timedelta.seconds`, which drops whole days, so an
entry aged `86500` seconds (one day plus 100 s, far older than the 300 s
TTL) measures as 100 "seconds" and is treated as fresh: the stale report
is returned, no provider call is made and the entry keeps its old
timestamp. -/
theorem C2_day_old_entry_served_stale :
    stDefault.CACHE_TTL < 86500 - 0 ∧
      getFullStockReport pGood stDefault 86500 "600519" staleState =
        (.ok staleReport, staleState, 0) := by
  constructor
  · decide
  · decide

/-- C7: the claim says that when the periodic sweep runs it deletes every
entry whose age exceeds `CACHE_TTL`.  Because `_is_cache_expired` uses
`timedelta.seconds`, a sweep at instant 86800 (which does run:
`86800 % 86400 = 400 > 300`) retains an entry cached at instant 100 —
aged 86700 seconds, far beyond the 300 s TTL — since
`86700 % 86400 = 300` is not greater than the TTL.  The sweep timestamp
is updated, the over-aged entry survives untouched. -/
theorem C7_sweep_retains_day_old_entry :
    stDefault.CACHE_TTL < 86800 - 100 ∧
      clearExpiredCache stDefault 86800
          { cache := [("stock_000001", (staleReport, 100))]
            lastClearCache := 0, infoMemo := [] } =
        { cache := [("stock_000001", (staleReport, 100))]
          lastClearCache := 86800, infoMemo := [] } := by
  constructor
  · decide
  · decide

/-- C6: a code that is not exactly six decimal digits is rejected by the
framework's regex validation with status 422 (which is in the promised
400/422 range) before the handler runs: the service state is untouched
and no provider call is made. -/
theorem C6_malformed_code_rejected (p : Provider) (st : Settings) (now : Nat)
    (code : String) (σ : ServiceState) (h : matchesCodeRegex code = false) :
    fullReportEndpoint p st now code σ = (.failure 422, σ, 0) := by
  simp [fullReportEndpoint, h]

/-- C6 witness: the three-character code `123` is rejected with 422, no
state change, no provider calls. -/
theorem C6_malformed_code_rejected_witness :
    fullReportEndpoint pGood stDefault 0 "123" {} = (.failure 422, {}, 0) :=
  C6_malformed_code_rejected pGood stDefault 0 "123" {} (by decide)

/-! ## Helper lemmas -/

/-- An entry whose age is within the TTL is not expired, whatever the day
component: `timedelta.seconds` only ever shrinks the true age. -/
theorem isCacheExpired_false_of_within (st : Settings) (now1 now2 : Nat)
    (h : now2 - now1 ≤ st.CACHE_TTL) : isCacheExpired st now2 now1 = false := by
  unfold isCacheExpired tdSeconds
  simp only [decide_eq_false_iff_not, not_lt]
  exact le_trans (Nat.mod_le _ _) h

/-- Dictionary update grows the association list by at most one entry. -/
theorem length_assocSet {α : Type _} (d : List (String × α)) (k : String)
    (v : α) : (assocSet d k v).length ≤ d.length + 1 := by
  unfold assocSet
  split
  · simp
  · simp

/-- The sweep never grows the cache. -/
theorem clearExpiredCache_cache_len (st : Settings) (now : Nat)
    (σ : ServiceState) :
    (clearExpiredCache st now σ).cache.length ≤ σ.cache.length := by
  unfold clearExpiredCache
  split
  · exact List.length_filter_le _ _
  · exact le_refl _

/-- The sweep does not touch the info memo. -/
theorem clearExpiredCache_infoMemo (st : Settings) (now : Nat)
    (σ : ServiceState) :
    (clearExpiredCache st now σ).infoMemo = σ.infoMemo := by
  unfold clearExpiredCache
  split <;> rfl

/-- The fetch-and-build path preserves the cache-size bound: the only
insertion is guarded by `len(self._cache) < settings.MAX_CACHE_SIZE`. -/
theorem fetchAndBuild_cache_len (p : Provider) (st : Settings) (now : Nat)
    (code : String) (σ : ServiceState)
    (h : σ.cache.length ≤ st.MAX_CACHE_SIZE) :
    (fetchAndBuild p st now code σ).2.1.cache.length ≤ st.MAX_CACHE_SIZE := by
  unfold fetchAndBuild
  have h1 : (clearExpiredCache st now σ).cache.length ≤ st.MAX_CACHE_SIZE :=
    le_trans (clearExpiredCache_cache_len st now σ) h
  dsimp only
  split
  · exact h1
  · split
    · exact h1
    · split
      · exact h1
      · split
        · simp only []
          exact le_trans (length_assocSet _ _ _) (by omega)
        · exact h1

/-- One full call preserves the cache-size bound. -/
theorem step_cache_len (p : Provider) (st : Settings) (now : Nat)
    (code : String) (σ : ServiceState)
    (h : σ.cache.length ≤ st.MAX_CACHE_SIZE) :
    (getFullStockReport p st now code σ).2.1.cache.length ≤
      st.MAX_CACHE_SIZE := by
  unfold getFullStockReport
  split
  · split
    · exact h
    · exact fetchAndBuild_cache_len p st now code σ h
  · exact fetchAndBuild_cache_len p st now code σ h

/-- Once `_get_stock_info` has answered successfully, asking again with the
resulting memo yields the same dictionary and leaves the memo unchanged
(an lru_cache hit, or — when `maxsize` is zero — a deterministic
recomputation). -/
theorem getStockInfo_stable (p : Provider) (st : Settings) (code : String)
    (m : InfoMemo) (info : Row) (m1 : InfoMemo) (n : Nat)
    (h : getStockInfo p st code m = (.ok info, m1, n)) :
    ∃ k, getStockInfo p st code m1 = (.ok info, m1, k) := by
  unfold getStockInfo at h ⊢
  cases hf : m.find? (fun e => e.1 = code) with
  | some e =>
      rw [hf] at h
      simp only [Prod.mk.injEq, Except.ok.injEq] at h
      obtain ⟨h1, h2, h3⟩ := h
      subst h1
      refine ⟨0, ?_⟩
      rw [← h2]
      rw [show ((code, e.2) :: m.filter (fun x => x.1 ≠ code)).find?
          (fun x => x.1 = code) = some (code, e.2) from by simp [List.find?]]
      simp only [Prod.mk.injEq, Except.ok.injEq]
      refine ⟨trivial, ?_, trivial⟩
      simp [List.filter_cons, List.filter_filter]
  | none =>
      rw [hf] at h
      cases hraw : getStockInfoRaw p code with
      | error e => rw [hraw] at h; simp at h
      | ok d =>
          rw [hraw] at h
          simp only [Prod.mk.injEq, Except.ok.injEq] at h
          obtain ⟨h1, h2, h3⟩ := h
          subst h1
          have hkeep : ∀ k2 : Nat, (m.take k2).filter (fun x => x.1 ≠ code) =
              m.take k2 := by
            intro k2
            refine List.filter_eq_self.mpr ?_
            intro a ha
            have h5 := List.find?_eq_none.mp hf a (List.mem_of_mem_take ha)
            simp only [decide_eq_true_eq] at h5 ⊢
            exact h5
          cases hsize : st.MAX_CACHE_SIZE with
          | zero =>
              rw [hsize] at h2
              simp only [List.take_zero] at h2
              rw [← h2]
              refine ⟨1, ?_⟩
              simp [List.find?, hsize]
          | succ k' =>
              rw [hsize] at h2
              simp only [List.take_succ_cons] at h2
              rw [← h2]
              refine ⟨0, ?_⟩
              rw [show ((code, d) :: m.take k').find? (fun x => x.1 = code) =
                  some (code, d) from by simp [List.find?]]
              simp only [Prod.mk.injEq, Except.ok.injEq]
              refine ⟨trivial, ?_, trivial⟩
              rw [List.filter_cons]
              have hcc : (decide ((code, d).1 ≠ code)) = false := by simp
              rw [hcc]
              simp only [Bool.false_eq_true, if_false]
              rw [hkeep k']

/-- Digit-by-digit rendering never produces the empty string. -/
theorem natToStr_ne_empty (n : Nat) : natToStr n ≠ "" := by
  rw [natToStr]
  split
  · intro h
    have h2 := congrArg String.data h
    simp at h2
  · intro h
    have h2 := congrArg String.data h
    simp at h2

/-- Integer rendering never produces the empty string. -/
theorem intToStr_ne_empty (n : Int) : intToStr n ≠ "" := by
  unfold intToStr
  split
  · intro h
    have h2 := congrArg String.data h
    simp at h2
  · exact natToStr_ne_empty _

/-- Rational rendering never produces the empty string. -/
theorem ratToStr_ne_empty (q : Rat) : ratToStr q ≠ "" := by
  unfold ratToStr
  intro h
  have h2 := congrArg String.data h
  simp at h2

/-- A truthy value's string form is nonempty. -/
theorem pyToStr_ne_empty (v : PyVal) (h : pyFalsy v = false) :
    pyToStr v ≠ "" := by
  cases v with
  | pnone => simp [pyFalsy] at h
  | pstr s =>
      unfold pyFalsy at h
      simpa [pyToStr] using h
  | pint n => exact intToStr_ne_empty n
  | prat q => exact ratToStr_ne_empty q

/-- Cache keys determine the code. -/
theorem getCacheKey_inj (a b : String) (h : getCacheKey a = getCacheKey b) :
    a = b := by
  unfold getCacheKey at h
  have h2 := congrArg String.data h
  simp only [String.data_append] at h2
  have h3 := List.append_cancel_left h2
  exact String.ext h3

/-- Members of an updated association list are old members or the new
pair. -/
theorem mem_assocSet {α : Type _} (d : List (String × α)) (k : String)
    (v : α) (x : String × α) (hx : x ∈ assocSet d k v) :
    x ∈ d ∨ x = (k, v) := by
  unfold assocSet at hx
  split at hx
  · obtain ⟨y, hy, hxy⟩ := List.mem_map.mp hx
    by_cases hk : y.1 = k
    · right
      rw [← hxy]
      simp [hk]
    · left
      rw [← hxy]
      simp only [hk, if_false]
      exact hy
  · rcases List.mem_append.mp hx with hmem | hmem
    · left; exact hmem
    · right; simpa using hmem

/-- The sweep preserves cache well-formedness. -/
theorem clearExpiredCache_wf (st : Settings) (now : Nat) (σ : ServiceState)
    (hwf : CacheWF σ) : CacheWF (clearExpiredCache st now σ) := by
  unfold clearExpiredCache
  split
  · intro e he
    exact hwf e (List.mem_of_mem_filter he)
  · exact hwf

/-- The fetch-and-build path only returns validated reports and preserves
cache well-formedness. -/
theorem fetchAndBuild_wf (p : Provider) (st : Settings) (now : Nat)
    (code : String) (σ : ServiceState) (r : StockReport) (σ1 : ServiceState)
    (n : Nat) (hwf : CacheWF σ)
    (h : fetchAndBuild p st now code σ = (.ok r, σ1, n)) :
    r.code = code ∧ isValidStockCode r.code = true ∧ r.name ≠ "" ∧
      CacheWF σ1 := by
  have hwf1 : CacheWF (clearExpiredCache st now σ) :=
    clearExpiredCache_wf st now σ hwf
  unfold fetchAndBuild at h
  dsimp only at h
  rcases hgi : getStockInfo p st code (clearExpiredCache st now σ).infoMemo
    with ⟨res, memo1, n0⟩
  rw [hgi] at h
  cases res with
  | error e => cases e <;> simp at h
  | ok info =>
      dsimp only at h
      split at h
      · simp at h
      · case isFalse hnf =>
          have hnf2 : pyFalsy (rowGetD info "股票简称" (.pstr "")) = false :=
            Bool.eq_false_iff.mpr hnf
          unfold mkStockReport at h
          split at h
          · simp at h
          · rename_i x report heq
            simp only [Prod.mk.injEq, Except.ok.injEq] at h
            obtain ⟨hr, hσ, hn⟩ := h
            split at heq
            · case isTrue hv =>
                injection heq with hlit
                subst hr
                rw [← hlit]
                refine ⟨rfl, hv, pyToStr_ne_empty _ hnf2, ?_⟩
                rw [← hσ]
                split
                · intro y hy
                  rcases mem_assocSet _ _ _ y hy with hmem | hnew
                  · exact hwf1 y hmem
                  · subst hnew
                    rw [← hlit]
                    exact ⟨rfl, hv, pyToStr_ne_empty _ hnf2⟩
                · intro y hy
                  exact hwf1 y hy
            · exact absurd heq (by simp)

/-- `_get_stock_info` (memoised) depends only on the basic-info call. -/
theorem getStockInfo_congr (p q : Provider) (st : Settings) (code : String)
    (m : InfoMemo)
    (h : q.stock_individual_info_em code = p.stock_individual_info_em code) :
    getStockInfo q st code m = getStockInfo p st code m := by
  unfold getStockInfo getStockInfoRaw
  rw [h]

/-- The fundamental section depends only on its own two fetches: any
provider agreeing on the basic-info and financial-indicator calls yields
the same section, memo and call count. -/
theorem getFundamentalData_congr (p q : Provider) (st : Settings)
    (code : String) (m : InfoMemo)
    (h1 : q.stock_individual_info_em code = p.stock_individual_info_em code)
    (h2 : q.stock_financial_analysis_indicator code =
      p.stock_financial_analysis_indicator code) :
    getFundamentalData q st code m = getFundamentalData p st code m := by
  unfold getFundamentalData
  rw [getStockInfo_congr p q st code m h1, h2]

/-- The valuation section depends only on the basic-info call. -/
theorem getValuationData_congr (p q : Provider) (st : Settings)
    (code : String) (m : InfoMemo)
    (h1 : q.stock_individual_info_em code = p.stock_individual_info_em code) :
    getValuationData q st code m = getValuationData p st code m := by
  unfold getValuationData
  rw [getStockInfo_congr p q st code m h1]

/-- The technical section depends only on the spot and history calls. -/
theorem getTechnicalData_congr (p q : Provider) (code : String)
    (h1 : q.stock_zh_a_spot_em = p.stock_zh_a_spot_em)
    (h2 : q.stock_zh_a_hist code = p.stock_zh_a_hist code) :
    getTechnicalData q code = getTechnicalData p code := by
  unfold getTechnicalData
  rw [h1, h2]

/-- The sentiment section depends only on the fund-flow and concept
calls. -/
theorem getSentimentData_congr (p q : Provider) (code : String)
    (h1 : q.stock_individual_fund_flow code (marketOf code) =
      p.stock_individual_fund_flow code (marketOf code))
    (h2 : q.stock_board_concept_cons_em "东方财富" =
      p.stock_board_concept_cons_em "东方财富") :
    getSentimentData q code = getSentimentData p code := by
  unfold getSentimentData
  rw [h1, h2]

/-- When the memoised lookup is stable at `m1`, the fundamental fetch
passes the memo through unchanged (so the valuation fetch that follows it
in `gather` order also runs against `m1`). -/
theorem getFundamentalData_memo (p : Provider) (st : Settings) (code : String)
    (m1 : InfoMemo) (info : Row) (k : Nat)
    (hst : getStockInfo p st code m1 = (.ok info, m1, k)) :
    (getFundamentalData p st code m1).2.1 = m1 := by
  unfold getFundamentalData
  rw [hst]
  dsimp only
  split <;> rfl

/-- C3: after a successful call stored its report in the cache, a second
call for the same code within `CACHE_TTL` seconds returns exactly that
stored report, leaves the service state untouched and makes no provider
call. -/
theorem C3_within_ttl_hit_returns_cached_report (p : Provider) (st : Settings)
    (code : String) (σ σ1 : ServiceState) (r : StockReport)
    (now1 now2 n1 : Nat)
    (hfirst : getFullStockReport p st now1 code σ = (.ok r, σ1, n1))
    (hstored : σ1.cache.find? (fun e => e.1 = getCacheKey code) =
      some (getCacheKey code, (r, now1)))
    (httl : now2 - now1 ≤ st.CACHE_TTL) :
    getFullStockReport p st now2 code σ1 = (.ok r, σ1, 0) := by
  have := hfirst
  unfold getFullStockReport
  rw [hstored]
  simp [isCacheExpired_false_of_within st now1 now2 httl]

/-- C3 witness: a fresh service serves `600519` at instant 1000 (six
provider calls) and caches the report; the repeat request at instant 1100
returns the identical report with zero provider calls. -/
theorem C3_within_ttl_hit_returns_cached_report_witness :
    getFullStockReport pGood stDefault 1100 "600519" exampleState1 =
      (.ok exampleReport, exampleState1, 0) :=
  C3_within_ttl_hit_returns_cached_report pGood stDefault "600519" {}
    exampleState1 exampleReport 1000 1100 6 (by decide) (by decide) (by decide)

/-- C9: `_safe_get_float` and `_safe_get_int` (modelled with their
exception flow made explicit, so the equations also certify that the
handler absorbs the only raisable error and the helpers are total) agree
with the claim's description `floatCoercionSpec` / `intCoercionSpec` on
every input value and default. -/
theorem C9_coercion_helpers_follow_spec (v : PyVal) (d : Option Rat)
    (di : Option Int) :
    safeGetFloat v d = floatCoercionSpec v d ∧
      safeGetInt v di = intCoercionSpec v di := by
  constructor
  · cases v with
    | pnone => rfl
    | pint n => rfl
    | prat q => rfl
    | pstr s =>
        unfold safeGetFloat safeGetFloatTry floatCoercionSpec isBlankOrDash pyFloat
        by_cases h1 : s = ""
        · simp [h1]
        · by_cases h2 : pyStrip s.data = ['-']
          · simp [h1, h2]
          · simp only [if_neg h1, if_neg h2]
            cases hp : pyFloatChars (pyRemoveChar (pyRemoveChar s.data ',') '%') <;>
              simp [hp, h1, h2]
  · cases v with
    | pnone => rfl
    | pint n => rfl
    | prat q => rfl
    | pstr s =>
        unfold safeGetInt safeGetIntTry intCoercionSpec isBlankOrDash pyFloat
        by_cases h1 : s = ""
        · simp [h1]
        · by_cases h2 : pyStrip s.data = ['-']
          · simp [h1, h2]
          · simp only [if_neg h1, if_neg h2]
            cases hp : pyFloatChars (pyRemoveChar s.data ',') <;> simp [hp, h1, h2]

/-- C8: starting from the empty cache, no sequence of
`get_full_stock_report` calls ever pushes the report cache beyond
`MAX_CACHE_SIZE` entries: insertion is guarded by the size check and the
sweep only deletes. -/
theorem C8_cache_size_never_exceeds_max (p : Provider) (st : Settings)
    (reqs : List (Nat × String)) :
    (runRequests p st reqs {}).cache.length ≤ st.MAX_CACHE_SIZE := by
  have main : ∀ σ : ServiceState, σ.cache.length ≤ st.MAX_CACHE_SIZE →
      (runRequests p st reqs σ).cache.length ≤ st.MAX_CACHE_SIZE := by
    induction reqs with
    | nil => intro σ h; exact h
    | cons r rs ih =>
        intro σ h
        exact ih _ (step_cache_len p st r.1 r.2 σ h)
  exact main {} (Nat.zero_le _)

/-- C5 counterexample: when name resolution fails because the basic-info
fetch raises, the request fails with `StockDataError` (HTTP 500), not the
claimed not-found error (HTTP 404). -/
theorem C5_lookup_failure_gives_data_error :
    getFullStockReport pRaise stDefault 0 "600001" {} =
        (.error .dataError, {}, 1) ∧
      fullReportEndpoint pRaise stDefault 0 "600001" {} =
        (.failure 500, {}, 1) ∧
      (StockExc.dataError : StockExc) ≠ .notFound :=
  ⟨by decide, by decide, by decide⟩

/-- C5 (amended): when the primary lookup does not succeed (and neither
cache holds the code), `get_full_stock_report` never returns a report; it
fails with a data error when the basic-info fetch raises or returns an
empty frame, and with a not-found error when the fetch returns data whose
stock-name field is missing or falsy. -/
theorem C5_amended_lookup_failure_fails_request (p : Provider) (st : Settings)
    (now : Nat) (code : String) (σ : ServiceState)
    (hmiss : σ.cache.find? (fun e => e.1 = getCacheKey code) = none)
    (hmemo : σ.infoMemo.find? (fun e => e.1 = code) = none) :
    ((p.stock_individual_info_em code = none ∨
        p.stock_individual_info_em code = some []) →
      ∃ σ1 n, getFullStockReport p st now code σ =
        (.error .dataError, σ1, n)) ∧
    (∀ rows, p.stock_individual_info_em code = some rows → rows ≠ [] →
      pyFalsy (rowGetD (buildInfoDict rows) "股票简称" (.pstr "")) = true →
      ∃ σ1 n, getFullStockReport p st now code σ =
        (.error .notFound, σ1, n)) := by
  have hmemo1 : (clearExpiredCache st now σ).infoMemo = σ.infoMemo :=
    clearExpiredCache_infoMemo st now σ
  constructor
  · intro hfetch
    refine ⟨{ clearExpiredCache st now σ with infoMemo := σ.infoMemo }, 1, ?_⟩
    unfold getFullStockReport
    rw [hmiss]
    unfold fetchAndBuild
    dsimp only
    rw [hmemo1]
    unfold getStockInfo
    rw [hmemo]
    unfold getStockInfoRaw
    rcases hfetch with hf | hf
    · rw [hf]
    · rw [hf]
      simp
  · intro rows hrows hne hfalsy
    refine ⟨{ clearExpiredCache st now σ with
      infoMemo := ((code, buildInfoDict rows) :: σ.infoMemo).take
        st.MAX_CACHE_SIZE }, 1, ?_⟩
    unfold getFullStockReport
    rw [hmiss]
    unfold fetchAndBuild
    dsimp only
    rw [hmemo1]
    unfold getStockInfo
    rw [hmemo]
    unfold getStockInfoRaw
    rw [hrows]
    have hie : rows.isEmpty = false := by
      cases rows with
      | nil => exact absurd rfl hne
      | cons a l => rfl
    simp [hie, hfalsy]

/-- C5 witness for the amended claim: the raising provider at a fresh
service gives the data-error outcome. -/
theorem C5_amended_lookup_failure_fails_request_witness :
    ∃ σ1 n, getFullStockReport pRaise stDefault 7 "600001" {} =
      (.error .dataError, σ1, n) :=
  (C5_amended_lookup_failure_fails_request pRaise stDefault 7 "600001" {}
    (by decide) (by decide)).1 (Or.inl rfl)

/-- C4: once name resolution succeeds, the endpoint answers 200 with a
complete report whose four sections are exactly the values their own
fetchers produce, whatever succeeds or raises; each section whose own
fetches raise is the all-defaults model (sentiment: every field `None`
and `concept_labels = []`, empty per the claim's "empty/None"); and each
section depends only on its own fetches — any provider agreeing on a
section's calls yields that section unchanged — so a raising fetch
leaves every other sub-section unaffected. -/
theorem C4_subsection_failures_isolated (p : Provider) (st : Settings)
    (now : Nat) (code : String) (σ : ServiceState) (info : Row)
    (m1 : InfoMemo) (n0 : Nat)
    (hvalid : isValidStockCode code = true)
    (hmiss : σ.cache.find? (fun e => e.1 = getCacheKey code) = none)
    (hinfo : getStockInfo p st code σ.infoMemo = (.ok info, m1, n0))
    (hname : pyFalsy (rowGetD info "股票简称" (.pstr "")) = false) :
    (fullReportEndpoint p st now code σ).1 =
      .success
        { code := code
          name := pyToStr (rowGetD info "股票简称" (.pstr ""))
          update_time := now
          fundamental_analysis := (getFundamentalData p st code m1).1
          valuation_analysis := (getValuationData p st code m1).1
          technical_analysis := (getTechnicalData p code).1
          sentiment_analysis := (getSentimentData p code).1 } ∧
    (p.stock_financial_analysis_indicator code = none →
      (getFundamentalData p st code m1).1 = {}) ∧
    (p.stock_zh_a_spot_em = none ∨ p.stock_zh_a_hist code = none →
      (getTechnicalData p code).1 = {}) ∧
    (p.stock_individual_fund_flow code (marketOf code) = none →
      p.stock_board_concept_cons_em "东方财富" = none →
      (getSentimentData p code).1 = { concept_labels := some [] }) ∧
    (∀ q : Provider,
      q.stock_individual_info_em code = p.stock_individual_info_em code →
      q.stock_financial_analysis_indicator code =
        p.stock_financial_analysis_indicator code →
      getFundamentalData q st code m1 = getFundamentalData p st code m1) ∧
    (∀ q : Provider,
      q.stock_individual_info_em code = p.stock_individual_info_em code →
      getValuationData q st code m1 = getValuationData p st code m1) ∧
    (∀ q : Provider, q.stock_zh_a_spot_em = p.stock_zh_a_spot_em →
      q.stock_zh_a_hist code = p.stock_zh_a_hist code →
      getTechnicalData q code = getTechnicalData p code) ∧
    (∀ q : Provider,
      q.stock_individual_fund_flow code (marketOf code) =
        p.stock_individual_fund_flow code (marketOf code) →
      q.stock_board_concept_cons_em "东方财富" =
        p.stock_board_concept_cons_em "东方财富" →
      getSentimentData q code = getSentimentData p code) := by
  obtain ⟨k1, hst1⟩ := getStockInfo_stable p st code σ.infoMemo info m1 n0 hinfo
  have hfmemo : (getFundamentalData p st code m1).2.1 = m1 :=
    getFundamentalData_memo p st code m1 info k1 hst1
  refine ⟨?_, ?_, ?_, ?_, ?_, ?_, ?_, ?_⟩
  · have hfb : (fetchAndBuild p st now code σ).1 =
        .ok
          { code := code
            name := pyToStr (rowGetD info "股票简称" (.pstr ""))
            update_time := now
            fundamental_analysis := (getFundamentalData p st code m1).1
            valuation_analysis := (getValuationData p st code m1).1
            technical_analysis := (getTechnicalData p code).1
            sentiment_analysis := (getSentimentData p code).1 } := by
      unfold fetchAndBuild
      dsimp only
      rw [clearExpiredCache_infoMemo, hinfo]
      dsimp only
      rw [hname]
      simp only [Bool.false_eq_true, if_false]
      rw [hfmemo]
      unfold mkStockReport
      rw [hvalid]
      simp
    have hsvc : getFullStockReport p st now code σ =
        fetchAndBuild p st now code σ := by
      unfold getFullStockReport
      rw [hmiss]
    have hlen : code.length = 6 := by
      unfold isValidStockCode at hvalid
      rw [Bool.and_eq_true] at hvalid
      simpa using hvalid.1
    have hdig : code.toList.all Char.isDigit = true := by
      unfold isValidStockCode at hvalid
      rw [Bool.and_eq_true] at hvalid
      exact hvalid.2
    have hne : code ≠ "" := by
      intro hh
      rw [hh] at hlen
      exact absurd hlen (by decide)
    have hdigit : pyIsDigitStr code = true := by
      unfold pyIsDigitStr
      rw [Bool.and_eq_true]
      exact ⟨by simpa using hne, hdig⟩
    have hregex : matchesCodeRegex code = true := hvalid
    rcases hfb2 : fetchAndBuild p st now code σ with ⟨res, σ1, ncalls⟩
    have hres : res =
        .ok
          { code := code
            name := pyToStr (rowGetD info "股票简称" (.pstr ""))
            update_time := now
            fundamental_analysis := (getFundamentalData p st code m1).1
            valuation_analysis := (getValuationData p st code m1).1
            technical_analysis := (getTechnicalData p code).1
            sentiment_analysis := (getSentimentData p code).1 } := by
      rw [← hfb, hfb2]
    subst hres
    unfold fullReportEndpoint
    rw [hsvc, hfb2]
    simp [hregex, hlen, hdigit, hne]
  · intro hfin
    unfold getFundamentalData
    rw [hst1, hfin]
  · intro hdisj
    unfold getTechnicalData
    rcases hdisj with hs | hh
    · rw [hs]
    · cases hsp : p.stock_zh_a_spot_em with
      | none => rfl
      | some spot => rw [hh]
  · intro hflow hconc
    unfold getSentimentData
    rw [hflow, hconc]
  · intro q h1 h2
    exact getFundamentalData_congr p q st code m1 h1 h2
  · intro q h1
    exact getValuationData_congr p q st code m1 h1
  · intro q h1 h2
    exact getTechnicalData_congr p q code h1 h2
  · intro q h1 h2
    exact getSentimentData_congr p q code h1 h2

/-- C4 witness, the spec's lone-failure example: only the two sentiment
fetches raise while the lookup and the other sub-fetches succeed; the
endpoint answers 200 with every section equal to its own fetcher's value,
and the sentiment section — whose own fetches raised — is the empty
model. -/
theorem C4_subsection_failures_isolated_witness :
    (fullReportEndpoint pSentOnly stDefault 9 "000001" {}).1 =
      .success
        { code := "000001"
          name := pyToStr (rowGetD sentInfoRows "股票简称" (.pstr ""))
          update_time := 9
          fundamental_analysis :=
            (getFundamentalData pSentOnly stDefault "000001" sentMemo).1
          valuation_analysis :=
            (getValuationData pSentOnly stDefault "000001" sentMemo).1
          technical_analysis := (getTechnicalData pSentOnly "000001").1
          sentiment_analysis := (getSentimentData pSentOnly "000001").1 } ∧
      (getSentimentData pSentOnly "000001").1 = { concept_labels := some [] } := by
  have h := C4_subsection_failures_isolated pSentOnly stDefault 9 "000001" {}
    sentInfoRows sentMemo 1 (by decide) (by decide) (by decide) (by decide)
  exact ⟨h.1, h.2.2.2.1 rfl rfl⟩

/-- C10: every report `get_full_stock_report` returns — built fresh or
served from a well-formed cache — carries the requested ticker as its
`code` (necessarily passing the 6-digit validator), a nonempty `name`
from the provider's name resolution, and, by the `StockReport` structure
type itself, all four analysis sections; well-formedness of the cache is
preserved. -/
theorem C10_returned_report_invariants (p : Provider) (st : Settings)
    (now : Nat) (code : String) (σ : ServiceState) (r : StockReport)
    (σ1 : ServiceState) (n : Nat) (hwf : CacheWF σ)
    (h : getFullStockReport p st now code σ = (.ok r, σ1, n)) :
    r.code = code ∧ isValidStockCode r.code = true ∧ r.name ≠ "" ∧
      CacheWF σ1 := by
  unfold getFullStockReport at h
  cases hf : σ.cache.find? (fun e => e.1 = getCacheKey code) with
  | some e =>
      rw [hf] at h
      dsimp only at h
      split at h
      · simp only [Prod.mk.injEq, Except.ok.injEq] at h
        obtain ⟨hr, hσ, hn⟩ := h
        have hmem := List.mem_of_find?_eq_some hf
        have hpred := List.find?_some hf
        simp only [decide_eq_true_eq] at hpred
        obtain ⟨hk, hv2, hn2⟩ := hwf e hmem
        have hcode : e.2.1.code = code :=
          getCacheKey_inj _ _ (by rw [← hk, hpred])
        subst hr
        exact ⟨hcode, hv2, hn2, hσ ▸ hwf⟩
      · exact fetchAndBuild_wf p st now code σ r σ1 n hwf h
  | none =>
      rw [hf] at h
      exact fetchAndBuild_wf p st now code σ r σ1 n hwf h

/-- C10 witness: the fresh-service request for `600519` returns a report
with the requested code, a valid code, a nonempty name, and a well-formed
resulting cache. -/
theorem C10_returned_report_invariants_witness :
    exampleReport.code = "600519" ∧
      isValidStockCode exampleReport.code = true ∧
      exampleReport.name ≠ "" ∧ CacheWF exampleState1 :=
  C10_returned_report_invariants pGood stDefault 1000 "600519" {}
    exampleReport exampleState1 6 (by intro e he; cases he) (by decide)
